import Mathlib

/-
Verification of the PID controller in
Source/UPIDController/Public/PIDController.h (struct FPIDController).

Floating-point values are modelled as rationals extended with a single
not-a-number element (`PFloat.nan`).  Arithmetic propagates `nan`;
comparisons involving `nan` are false, matching IEEE-754 ordered
comparison semantics, which is precisely what the guards in the source
rely on (`InDeltaTime == 0.0f` is false for a NaN delta time, and
`FMath::IsNaN` is the explicit NaN test).  Rounding is not modelled:
the specification's arithmetic statements are exact.
-/

/-- A float value: either an actual (rational) number or NaN. -/
inductive PFloat where
  | val (q : ℚ)
  | nan
deriving DecidableEq, Repr

namespace PFloat

/-- IEEE addition on the model: NaN propagates. -/
def add : PFloat → PFloat → PFloat
  | val a, val b => val (a + b)
  | _, _ => nan

/-- IEEE subtraction on the model: NaN propagates. -/
def sub : PFloat → PFloat → PFloat
  | val a, val b => val (a - b)
  | _, _ => nan

/-- IEEE multiplication on the model: NaN propagates. -/
def mul : PFloat → PFloat → PFloat
  | val a, val b => val (a * b)
  | _, _ => nan

/-- IEEE division on the model: NaN propagates, and division by zero
(never reached by the guarded source paths) is mapped to NaN. -/
def div : PFloat → PFloat → PFloat
  | val a, val b => if b = 0 then nan else val (a / b)
  | _, _ => nan

/-- IEEE negation on the model. -/
def neg : PFloat → PFloat
  | val a => val (-a)
  | nan => nan

/-- IEEE ordered `==`: false whenever either side is NaN. -/
def beq : PFloat → PFloat → Bool
  | val a, val b => decide (a = b)
  | _, _ => false

/-- IEEE ordered `<`: false whenever either side is NaN. -/
def lt : PFloat → PFloat → Bool
  | val a, val b => decide (a < b)
  | _, _ => false

end PFloat

/-- FMath::IsNaN from the engine: the explicit not-a-number predicate. -/
def FMath.IsNaN : PFloat → Bool
  | PFloat.nan => true
  | PFloat.val _ => false

/-- FMath::Clamp from the engine:
`Clamp(X, Mn, Mx) = X < Mn ? Mn : (X < Mx ? X : Mx)` with IEEE `<`. -/
def FMath.Clamp (X Mn Mx : PFloat) : PFloat :=
  if X.lt Mn then Mn else if X.lt Mx then X else Mx

/-- The USTRUCT FPIDController: three gains `P`, `I`, `D`, the symmetric
output bound `MaxOutAbs`, and the transient state `PrevErr`, `IErr`. -/
structure FPIDController where
  P : PFloat
  I : PFloat
  D : PFloat
  MaxOutAbs : PFloat
  PrevErr : PFloat
  IErr : PFloat
deriving DecidableEq, Repr

namespace FPIDController

/-- FPIDController::Update.  Returns the output together with the
post-call controller (the C++ mutates `IErr` and `PrevErr` in place). -/
def Update (c : FPIDController) (InError InDeltaTime : PFloat) :
    PFloat × FPIDController :=
  if InDeltaTime.beq (PFloat.val 0) || FMath.IsNaN InError then
    (PFloat.val 0, c)
  else
    let POut := c.P.mul InError
    let IErr := c.IErr.add (InDeltaTime.mul InError)
    let IOut := c.I.mul IErr
    let DErr := (InError.sub c.PrevErr).div InDeltaTime
    let DOut := c.D.mul DErr
    let Out := (POut.add IOut).add DOut
    (FMath.Clamp Out c.MaxOutAbs.neg c.MaxOutAbs,
      { c with PrevErr := InError, IErr := IErr })

/-- FPIDController::UpdateAsPID: delegates to Update. -/
def UpdateAsPID (c : FPIDController) (InError InDeltaTime : PFloat) :
    PFloat × FPIDController :=
  c.Update InError InDeltaTime

/-- FPIDController::UpdateAsP: NaN guard only, no state mutation. -/
def UpdateAsP (c : FPIDController) (InError : PFloat) :
    PFloat × FPIDController :=
  if FMath.IsNaN InError then
    (PFloat.val 0, c)
  else
    (FMath.Clamp (c.P.mul InError) c.MaxOutAbs.neg c.MaxOutAbs, c)

/-- FPIDController::UpdateAsPD: guard, P and D terms, sets PrevErr. -/
def UpdateAsPD (c : FPIDController) (InError InDeltaTime : PFloat) :
    PFloat × FPIDController :=
  if InDeltaTime.beq (PFloat.val 0) || FMath.IsNaN InError then
    (PFloat.val 0, c)
  else
    let POut := c.P.mul InError
    let DErr := (InError.sub c.PrevErr).div InDeltaTime
    let DOut := c.D.mul DErr
    let Out := POut.add DOut
    (FMath.Clamp Out c.MaxOutAbs.neg c.MaxOutAbs,
      { c with PrevErr := InError })

/-- FPIDController::UpdateAsPI: guard, P and I terms, accumulates IErr.
Note: the source body never assigns PrevErr. -/
def UpdateAsPI (c : FPIDController) (InError InDeltaTime : PFloat) :
    PFloat × FPIDController :=
  if InDeltaTime.beq (PFloat.val 0) || FMath.IsNaN InError then
    (PFloat.val 0, c)
  else
    let POut := c.P.mul InError
    let IErr := c.IErr.add (InDeltaTime.mul InError)
    let IOut := c.I.mul IErr
    let Out := POut.add IOut
    (FMath.Clamp Out c.MaxOutAbs.neg c.MaxOutAbs,
      { c with IErr := IErr })

/-- FPIDController::Reset: zero the transient error state. -/
def Reset (c : FPIDController) : FPIDController :=
  { c with PrevErr := PFloat.val 0, IErr := PFloat.val 0 }

/-- The parameterized constructor FPIDController(InP, InI, InD,
InMaxOutAbs): stores the four parameters and calls Reset, which
overwrites the otherwise uninitialized transient fields (the
pre-Reset garbage is modelled here as `nan`; Reset discards it). -/
def construct (InP InI InD InMaxOutAbs : PFloat) : FPIDController :=
  Reset { P := InP, I := InI, D := InD, MaxOutAbs := InMaxOutAbs,
          PrevErr := PFloat.nan, IErr := PFloat.nan }

end FPIDController

/- Helper lemmas about the float model. -/

@[simp] theorem PFloat.mul_nan (x : PFloat) : x.mul PFloat.nan = PFloat.nan := by
  cases x <;> rfl

@[simp] theorem PFloat.nan_mul (x : PFloat) : PFloat.nan.mul x = PFloat.nan := by
  cases x <;> rfl

@[simp] theorem PFloat.add_nan (x : PFloat) : x.add PFloat.nan = PFloat.nan := by
  cases x <;> rfl

@[simp] theorem PFloat.nan_add (x : PFloat) : PFloat.nan.add x = PFloat.nan := by
  cases x <;> rfl

@[simp] theorem PFloat.sub_nan (x : PFloat) : x.sub PFloat.nan = PFloat.nan := by
  cases x <;> rfl

@[simp] theorem PFloat.div_nan (x : PFloat) : x.div PFloat.nan = PFloat.nan := by
  cases x <;> rfl

@[simp] theorem PFloat.nan_beq (x : PFloat) : PFloat.nan.beq x = false := by
  cases x <;> rfl

@[simp] theorem PFloat.nan_lt (x : PFloat) : PFloat.nan.lt x = false := by
  cases x <;> rfl

@[simp] theorem PFloat.lt_nan (x : PFloat) : x.lt PFloat.nan = false := by
  cases x <;> rfl

@[simp] theorem PFloat.isNaN_val (q : ℚ) : FMath.IsNaN (PFloat.val q) = false := rfl

@[simp] theorem PFloat.beq_val_val (a b : ℚ) :
    (PFloat.val a).beq (PFloat.val b) = decide (a = b) := rfl

@[simp] theorem PFloat.lt_val_val (a b : ℚ) :
    (PFloat.val a).lt (PFloat.val b) = decide (a < b) := rfl

@[simp] theorem PFloat.add_val_val (a b : ℚ) :
    (PFloat.val a).add (PFloat.val b) = PFloat.val (a + b) := rfl

@[simp] theorem PFloat.sub_val_val (a b : ℚ) :
    (PFloat.val a).sub (PFloat.val b) = PFloat.val (a - b) := rfl

@[simp] theorem PFloat.mul_val_val (a b : ℚ) :
    (PFloat.val a).mul (PFloat.val b) = PFloat.val (a * b) := rfl

@[simp] theorem PFloat.neg_val (a : ℚ) :
    (PFloat.val a).neg = PFloat.val (-a) := rfl

theorem PFloat.div_val_val (a b : ℚ) (hb : b ≠ 0) :
    (PFloat.val a).div (PFloat.val b) = PFloat.val (a / b) := by
  simp [PFloat.div, hb]

theorem PFloat.beq_zero_eq_false {dt : PFloat} (h : dt ≠ PFloat.val 0) :
    dt.beq (PFloat.val 0) = false := by
  cases dt with
  | val q =>
    simp only [PFloat.beq_val_val, decide_eq_false_iff_not]
    intro hq
    exact h (by rw [hq])
  | nan => rfl

/- Claim theorems. -/

/-- Claim C1: for every controller state, every gain configuration and
every (error, deltaTime), if deltaTime equals 0 or error is NaN, then
Update returns 0 and leaves the whole state (in particular PrevErr and
IErr) unchanged; the same guard applies to UpdateAsPD, UpdateAsPI and
UpdateAsPID. -/
theorem update_degenerate_guard (c : FPIDController) (e dt : PFloat) :
    c.Update e (PFloat.val 0) = (PFloat.val 0, c) ∧
    c.Update PFloat.nan dt = (PFloat.val 0, c) ∧
    c.UpdateAsPD e (PFloat.val 0) = (PFloat.val 0, c) ∧
    c.UpdateAsPD PFloat.nan dt = (PFloat.val 0, c) ∧
    c.UpdateAsPI e (PFloat.val 0) = (PFloat.val 0, c) ∧
    c.UpdateAsPI PFloat.nan dt = (PFloat.val 0, c) ∧
    c.UpdateAsPID e (PFloat.val 0) = (PFloat.val 0, c) ∧
    c.UpdateAsPID PFloat.nan dt = (PFloat.val 0, c) := by
  refine ⟨?_, ?_, ?_, ?_, ?_, ?_, ?_, ?_⟩ <;>
    simp [FPIDController.Update, FPIDController.UpdateAsPD,
      FPIDController.UpdateAsPI, FPIDController.UpdateAsPID, FMath.IsNaN]

/-- Claim C6: UpdateAsPID returns the same output and post-state as
Update on every controller state and input pair. -/
theorem updateAsPID_eq_update (c : FPIDController) (e dt : PFloat) :
    c.UpdateAsPID e dt = c.Update e dt := rfl

/-- Claim C9: the parameterized constructor stores the four parameters
verbatim and (through its internal Reset call) zeroes PrevErr and IErr,
so the constructed controller needs no further Reset before use. -/
theorem construct_initializes (p i d m : PFloat) :
    FPIDController.construct p i d m =
      { P := p, I := i, D := d, MaxOutAbs := m,
        PrevErr := PFloat.val 0, IErr := PFloat.val 0 } ∧
    (FPIDController.construct p i d m).Reset =
      FPIDController.construct p i d m := ⟨rfl, rfl⟩

/-- Claim C7: Reset zeroes PrevErr and IErr, preserves the gains and the
output limit, is idempotent, and yields exactly the state of a freshly
constructed (hence internally reset) controller with the same gains, so
all subsequent update behavior coincides with that fresh controller. -/
theorem reset_spec_idempotent (c : FPIDController) :
    c.Reset.PrevErr = PFloat.val 0 ∧
    c.Reset.IErr = PFloat.val 0 ∧
    c.Reset.P = c.P ∧
    c.Reset.I = c.I ∧
    c.Reset.D = c.D ∧
    c.Reset.MaxOutAbs = c.MaxOutAbs ∧
    c.Reset.Reset = c.Reset ∧
    c.Reset = FPIDController.construct c.P c.I c.D c.MaxOutAbs :=
  ⟨rfl, rfl, rfl, rfl, rfl, rfl, rfl, rfl⟩

/-- Claim C2: on a non-degenerate call (deltaTime not equal to 0, error
not NaN), Update adds deltaTime * error to IErr, sets PrevErr to the
error, leaves the gains and the output limit untouched, and returns
the P, I and D terms summed and clamped to [-MaxOutAbs, MaxOutAbs],
with the I term using the freshly accumulated IErr and the D term the
previous PrevErr. -/
theorem update_nondegenerate_step (c : FPIDController) (er : ℚ) (dt : PFloat)
    (hdt : dt ≠ PFloat.val 0) :
    (c.Update (PFloat.val er) dt).2.IErr = c.IErr.add (dt.mul (PFloat.val er)) ∧
    (c.Update (PFloat.val er) dt).2.PrevErr = PFloat.val er ∧
    (c.Update (PFloat.val er) dt).2.P = c.P ∧
    (c.Update (PFloat.val er) dt).2.I = c.I ∧
    (c.Update (PFloat.val er) dt).2.D = c.D ∧
    (c.Update (PFloat.val er) dt).2.MaxOutAbs = c.MaxOutAbs ∧
    (c.Update (PFloat.val er) dt).1 =
      FMath.Clamp
        (((c.P.mul (PFloat.val er)).add
            (c.I.mul (c.IErr.add (dt.mul (PFloat.val er))))).add
          (c.D.mul (((PFloat.val er).sub c.PrevErr).div dt)))
        c.MaxOutAbs.neg c.MaxOutAbs := by
  have hg : dt.beq (PFloat.val 0) = false := PFloat.beq_zero_eq_false hdt
  simp [FPIDController.Update, hg]

/-- Witness for C2 at a concrete controller, error 3 and deltaTime 2. -/
theorem update_nondegenerate_step_witness :
    (PFloat.val 2 ≠ PFloat.val 0) ∧
    (((⟨PFloat.val 1, PFloat.val 1, PFloat.val 1, PFloat.val 10,
        PFloat.val 5, PFloat.val 7⟩ : FPIDController).Update
          (PFloat.val 3) (PFloat.val 2)).2.IErr =
        (PFloat.val 7).add ((PFloat.val 2).mul (PFloat.val 3)) ∧
      ((⟨PFloat.val 1, PFloat.val 1, PFloat.val 1, PFloat.val 10,
        PFloat.val 5, PFloat.val 7⟩ : FPIDController).Update
          (PFloat.val 3) (PFloat.val 2)).2.PrevErr = PFloat.val 3 ∧
      ((⟨PFloat.val 1, PFloat.val 1, PFloat.val 1, PFloat.val 10,
        PFloat.val 5, PFloat.val 7⟩ : FPIDController).Update
          (PFloat.val 3) (PFloat.val 2)).2.P = PFloat.val 1 ∧
      ((⟨PFloat.val 1, PFloat.val 1, PFloat.val 1, PFloat.val 10,
        PFloat.val 5, PFloat.val 7⟩ : FPIDController).Update
          (PFloat.val 3) (PFloat.val 2)).2.I = PFloat.val 1 ∧
      ((⟨PFloat.val 1, PFloat.val 1, PFloat.val 1, PFloat.val 10,
        PFloat.val 5, PFloat.val 7⟩ : FPIDController).Update
          (PFloat.val 3) (PFloat.val 2)).2.D = PFloat.val 1 ∧
      ((⟨PFloat.val 1, PFloat.val 1, PFloat.val 1, PFloat.val 10,
        PFloat.val 5, PFloat.val 7⟩ : FPIDController).Update
          (PFloat.val 3) (PFloat.val 2)).2.MaxOutAbs = PFloat.val 10 ∧
      ((⟨PFloat.val 1, PFloat.val 1, PFloat.val 1, PFloat.val 10,
        PFloat.val 5, PFloat.val 7⟩ : FPIDController).Update
          (PFloat.val 3) (PFloat.val 2)).1 =
        FMath.Clamp
          ((((PFloat.val 1).mul (PFloat.val 3)).add
              ((PFloat.val 1).mul ((PFloat.val 7).add
                ((PFloat.val 2).mul (PFloat.val 3))))).add
            ((PFloat.val 1).mul (((PFloat.val 3).sub (PFloat.val 5)).div
              (PFloat.val 2))))
          (PFloat.val 10).neg (PFloat.val 10)) :=
  ⟨by decide, update_nondegenerate_step
    ⟨PFloat.val 1, PFloat.val 1, PFloat.val 1, PFloat.val 10,
     PFloat.val 5, PFloat.val 7⟩ 3 (PFloat.val 2) (by decide)⟩

/-- Claim C10: a NaN deltaTime is not caught by the degenerate-input
guard: with a non-NaN error, Update still mutates state (IErr becomes
NaN, PrevErr becomes the error), the returned value is the clamp of a
NaN expression (which evaluates to MaxOutAbs, not 0), UpdateAsPI turns
IErr into NaN and UpdateAsPD sets PrevErr to the error. -/
theorem nan_deltaTime_not_guarded (c : FPIDController) (er : ℚ) :
    (c.Update (PFloat.val er) PFloat.nan).2.IErr = PFloat.nan ∧
    (c.Update (PFloat.val er) PFloat.nan).2.PrevErr = PFloat.val er ∧
    (c.Update (PFloat.val er) PFloat.nan).1 =
      FMath.Clamp PFloat.nan c.MaxOutAbs.neg c.MaxOutAbs ∧
    FMath.Clamp PFloat.nan c.MaxOutAbs.neg c.MaxOutAbs = c.MaxOutAbs ∧
    (c.UpdateAsPI (PFloat.val er) PFloat.nan).2.IErr = PFloat.nan ∧
    (c.UpdateAsPD (PFloat.val er) PFloat.nan).2.PrevErr = PFloat.val er := by
  refine ⟨?_, ?_, ?_, ?_, ?_, ?_⟩ <;>
    simp [FPIDController.Update, FPIDController.UpdateAsPI,
      FPIDController.UpdateAsPD, FMath.IsNaN, FMath.Clamp]

/-- Claim C5: UpdateAsP guards only on a NaN error, performs no state
mutation whatsoever, returns the clamped P term for a non-NaN error,
its output depends only on the gain P, the output limit and the current
error (not on the other gains or the transient state), and a subsequent
UpdateAsPID call behaves exactly as on the untouched controller, in
particular on a freshly constructed one with the same gains. -/
theorem updateAsP_pure_isolated
    (p i1 d1 m pe1 ie1 i2 d2 pe2 ie2 e e2 dt2 : PFloat) :
    ((⟨p, i1, d1, m, pe1, ie1⟩ : FPIDController).UpdateAsP e).2 =
      (⟨p, i1, d1, m, pe1, ie1⟩ : FPIDController) ∧
    ((⟨p, i1, d1, m, pe1, ie1⟩ : FPIDController).UpdateAsP e).1 =
      (if FMath.IsNaN e then PFloat.val 0
       else FMath.Clamp (p.mul e) m.neg m) ∧
    ((⟨p, i1, d1, m, pe1, ie1⟩ : FPIDController).UpdateAsP e).1 =
      ((⟨p, i2, d2, m, pe2, ie2⟩ : FPIDController).UpdateAsP e).1 ∧
    (((⟨p, i1, d1, m, pe1, ie1⟩ : FPIDController).UpdateAsP e).2.UpdateAsPID
        e2 dt2 =
      (⟨p, i1, d1, m, pe1, ie1⟩ : FPIDController).UpdateAsPID e2 dt2) ∧
    (((FPIDController.construct p i1 d1 m).UpdateAsP e).2.UpdateAsPID
        e2 dt2 =
      (FPIDController.construct p i1 d1 m).UpdateAsPID e2 dt2) := by
  refine ⟨?_, ?_, ?_, ?_, ?_⟩ <;>
    cases e <;>
      simp [FPIDController.UpdateAsP, FMath.IsNaN]

/-- Claim C8: with gain P = 0, gain I = 1, output limit 1000 and any
derivative gain, starting from the constructed (reset) controller, two
UpdateAsPI calls with error 2 and deltaTime 1 leave IErr at 2 then 4
and return outputs 2 then 4. -/
theorem updatePI_integral_accumulation (d : PFloat) :
    ((FPIDController.construct (PFloat.val 0) (PFloat.val 1) d
        (PFloat.val 1000)).UpdateAsPI (PFloat.val 2) (PFloat.val 1)).1 =
      PFloat.val 2 ∧
    ((FPIDController.construct (PFloat.val 0) (PFloat.val 1) d
        (PFloat.val 1000)).UpdateAsPI (PFloat.val 2) (PFloat.val 1)).2.IErr =
      PFloat.val 2 ∧
    (((FPIDController.construct (PFloat.val 0) (PFloat.val 1) d
        (PFloat.val 1000)).UpdateAsPI (PFloat.val 2) (PFloat.val 1)).2.UpdateAsPI
        (PFloat.val 2) (PFloat.val 1)).1 = PFloat.val 4 ∧
    (((FPIDController.construct (PFloat.val 0) (PFloat.val 1) d
        (PFloat.val 1000)).UpdateAsPI (PFloat.val 2) (PFloat.val 1)).2.UpdateAsPI
        (PFloat.val 2) (PFloat.val 1)).2.IErr = PFloat.val 4 := by
  refine ⟨?_, ?_, ?_, ?_⟩ <;>
    norm_num [FPIDController.construct, FPIDController.Reset,
      FPIDController.UpdateAsPI, FMath.Clamp]

/-- Claim C3: the output clamp is the symmetric operation
clamp(x, -MaxOutAbs, MaxOutAbs) with clamp(x, lo, hi) =
max(lo, min(x, hi)) (for the spec-mandated non-negative output limit),
and whenever the raw P+I+D sum exceeds the limit in absolute value the
returned output of Update is exactly +MaxOutAbs or -MaxOutAbs, matching
the sign of the raw sum. -/
theorem clamp_symmetric_saturation (p i d L pe ie er dq x : ℚ)
    (hdq : dq ≠ 0) (hL : 0 ≤ L) :
    FMath.Clamp (PFloat.val x) (PFloat.val L).neg (PFloat.val L) =
      PFloat.val (max (-L) (min x L)) ∧
    (L < p * er + i * (ie + dq * er) + d * ((er - pe) / dq) →
      ((⟨PFloat.val p, PFloat.val i, PFloat.val d, PFloat.val L,
         PFloat.val pe, PFloat.val ie⟩ : FPIDController).Update
          (PFloat.val er) (PFloat.val dq)).1 = PFloat.val L) ∧
    (p * er + i * (ie + dq * er) + d * ((er - pe) / dq) < -L →
      ((⟨PFloat.val p, PFloat.val i, PFloat.val d, PFloat.val L,
         PFloat.val pe, PFloat.val ie⟩ : FPIDController).Update
          (PFloat.val er) (PFloat.val dq)).1 = PFloat.val (-L)) := by
  have hclamp : ∀ y : ℚ,
      FMath.Clamp (PFloat.val y) (PFloat.val (-L)) (PFloat.val L) =
        PFloat.val (max (-L) (min y L)) := by
    intro y
    simp only [FMath.Clamp, PFloat.lt_val_val, decide_eq_true_eq]
    rcases lt_or_le y (-L) with h1 | h1
    · rw [if_pos h1, min_eq_left (by linarith), max_eq_left (le_of_lt h1)]
    · rw [if_neg (not_lt.mpr h1)]
      rcases lt_or_le y L with h2 | h2
      · rw [if_pos h2, min_eq_left (le_of_lt h2), max_eq_right h1]
      · rw [if_neg (not_lt.mpr h2), min_eq_right h2,
          max_eq_right (by linarith)]
  have hout :
      ((⟨PFloat.val p, PFloat.val i, PFloat.val d, PFloat.val L,
         PFloat.val pe, PFloat.val ie⟩ : FPIDController).Update
          (PFloat.val er) (PFloat.val dq)).1 =
        FMath.Clamp
          (PFloat.val (p * er + i * (ie + dq * er) + d * ((er - pe) / dq)))
          (PFloat.val (-L)) (PFloat.val L) := by
    simp [FPIDController.Update, hdq, PFloat.div_val_val (er - pe) dq hdq]
  refine ⟨?_, ?_, ?_⟩
  · rw [PFloat.neg_val]; exact hclamp x
  · intro hgt
    rw [hout, hclamp, min_eq_right (le_of_lt hgt),
      max_eq_right (by linarith)]
  · intro hlt
    rw [hout, hclamp, min_eq_left (by linarith),
      max_eq_left (le_of_lt hlt)]

/-- Witness for C3: limit 2, gain P 10, error 1, deltaTime 1; the raw
output 10 exceeds the limit and the result saturates at +2. -/
theorem clamp_symmetric_saturation_witness :
    ((1 : ℚ) ≠ 0) ∧ ((0 : ℚ) ≤ 2) ∧
    (FMath.Clamp (PFloat.val 0) (PFloat.val 2).neg (PFloat.val 2) =
      PFloat.val (max (-2) (min 0 2)) ∧
    ((2 : ℚ) < 10 * 1 + 0 * (0 + 1 * 1) + 0 * ((1 - 0) / 1) →
      ((⟨PFloat.val 10, PFloat.val 0, PFloat.val 0, PFloat.val 2,
         PFloat.val 0, PFloat.val 0⟩ : FPIDController).Update
          (PFloat.val 1) (PFloat.val 1)).1 = PFloat.val 2) ∧
    ((10 : ℚ) * 1 + 0 * (0 + 1 * 1) + 0 * ((1 - 0) / 1) < -2 →
      ((⟨PFloat.val 10, PFloat.val 0, PFloat.val 0, PFloat.val 2,
         PFloat.val 0, PFloat.val 0⟩ : FPIDController).Update
          (PFloat.val 1) (PFloat.val 1)).1 = PFloat.val (-2))) :=
  ⟨by norm_num, by norm_num,
    clamp_symmetric_saturation 10 0 0 2 0 0 1 1 0 (by norm_num) (by norm_num)⟩

/-- Claim C4 counterexample: a non-degenerate UpdateAsPI call (finite
error 2, finite nonzero deltaTime 1) leaves PrevErr at its prior value
7; it is not set to the input error, refuting the claim for the PI
variant. -/
theorem updateAsPI_prevErr_counterexample :
    ((⟨PFloat.val 1, PFloat.val 1, PFloat.val 1, PFloat.val 1000,
       PFloat.val 7, PFloat.val 0⟩ : FPIDController).UpdateAsPI
        (PFloat.val 2) (PFloat.val 1)).2.PrevErr = PFloat.val 7 ∧
    ¬ ((⟨PFloat.val 1, PFloat.val 1, PFloat.val 1, PFloat.val 1000,
       PFloat.val 7, PFloat.val 0⟩ : FPIDController).UpdateAsPI
        (PFloat.val 2) (PFloat.val 1)).2.PrevErr = PFloat.val 2 := by
  decide

/-- Claim C4 amended: on every non-degenerate call, UpdateAsPD and
UpdateAsPID set PrevErr to the input error, while UpdateAsPI leaves
PrevErr unchanged — its only mutation is accumulating IErr. -/
theorem variants_prevErr_mutation (c : FPIDController) (er : ℚ)
    (dt : PFloat) (hdt : dt ≠ PFloat.val 0) :
    (c.UpdateAsPD (PFloat.val er) dt).2.PrevErr = PFloat.val er ∧
    (c.UpdateAsPID (PFloat.val er) dt).2.PrevErr = PFloat.val er ∧
    (c.UpdateAsPI (PFloat.val er) dt).2 =
      { c with IErr := c.IErr.add (dt.mul (PFloat.val er)) } := by
  have hg : dt.beq (PFloat.val 0) = false := PFloat.beq_zero_eq_false hdt
  refine ⟨?_, ?_, ?_⟩ <;>
    simp [FPIDController.UpdateAsPD, FPIDController.UpdateAsPID,
      FPIDController.Update, FPIDController.UpdateAsPI, hg]

/-- Witness for the amended C4 at a concrete controller, error 2 and
deltaTime 1. -/
theorem variants_prevErr_mutation_witness :
    (PFloat.val 1 ≠ PFloat.val 0) ∧
    (((⟨PFloat.val 1, PFloat.val 1, PFloat.val 1, PFloat.val 1000,
        PFloat.val 7, PFloat.val 3⟩ : FPIDController).UpdateAsPD
         (PFloat.val 2) (PFloat.val 1)).2.PrevErr = PFloat.val 2 ∧
     ((⟨PFloat.val 1, PFloat.val 1, PFloat.val 1, PFloat.val 1000,
        PFloat.val 7, PFloat.val 3⟩ : FPIDController).UpdateAsPID
         (PFloat.val 2) (PFloat.val 1)).2.PrevErr = PFloat.val 2 ∧
     ((⟨PFloat.val 1, PFloat.val 1, PFloat.val 1, PFloat.val 1000,
        PFloat.val 7, PFloat.val 3⟩ : FPIDController).UpdateAsPI
         (PFloat.val 2) (PFloat.val 1)).2 =
       { (⟨PFloat.val 1, PFloat.val 1, PFloat.val 1, PFloat.val 1000,
           PFloat.val 7, PFloat.val 3⟩ : FPIDController) with
         IErr := (PFloat.val 3).add ((PFloat.val 1).mul (PFloat.val 2)) }) :=
  ⟨by decide, variants_prevErr_mutation
    ⟨PFloat.val 1, PFloat.val 1, PFloat.val 1, PFloat.val 1000,
     PFloat.val 7, PFloat.val 3⟩ 2 (PFloat.val 1) (by decide)⟩
